import Mathlib

/-!
Shallow embedding of `src/main.py`, the detective-agency case-management
web application: data model (users, cases), request handlers (registration,
login, user directory, case directory) and an event/trace semantics for the
multi-request behaviour. Machine behaviour that Python leaves implicit is made
explicit: an uncaught exception in a handler is the `Response.fatal` outcome,
`query.filter_by(...).first()` is `List.find?`, `db.session.delete` removes the
first matching record, and attribute assignment on the object returned by
`first()` mutates the first matching record.
-/

/-- Role constants from `src/main.py` (`GUEST_ROLE = 1`). -/
def GUEST_ROLE : Nat := 1

/-- `DETECTIVE_ROLE = 2` in `src/main.py`. -/
def DETECTIVE_ROLE : Nat := 2

/-- `BOSS_ROLE = 3` in `src/main.py`. -/
def BOSS_ROLE : Nat := 3

/-- The duplicate-email error message constant `SAME_EMAIL_ERROR`
(source text: "There's already an account linked to this e-mail"). -/
def SAME_EMAIL_ERROR : String := "There is already an account linked to this e-mail"

/-- The `users` table row (`class User` in `src/main.py`): primary key `_id`
(here `id`), name, optional last name, password hash, email, integer role,
optional detective id, approval flag. -/
structure User where
  id : Nat
  name : String
  last_name : Option String
  password : String
  email : String
  role : Nat
  detective_id : Option String
  approved : Bool
deriving Repr, DecidableEq

/-- The `cases` table row (`class Case` in `src/main.py`): primary key `_id`
(here `id`), owner foreign key `uid`, title, optional description, content. -/
structure Case where
  id : Nat
  uid : Nat
  title : String
  description : Option String
  content : String
deriving Repr, DecidableEq

/-- The database state: the two tables, in insertion order, plus the next
auto-increment primary key for each. -/
structure DB where
  users : List User
  cases : List Case
  nextUid : Nat
  nextCid : Nat
deriving Repr, DecidableEq

/-- `User.query.filter_by(email=email).first()`. -/
def findUserByEmail (db : DB) (email : String) : Option User :=
  db.users.find? (fun u => u.email = email)

/-- `User.query.filter_by(_id=uid).first()`. -/
def findUserById (db : DB) (uid : Nat) : Option User :=
  db.users.find? (fun u => u.id = uid)

/-- `Case.query.filter_by(_id=cid).first()`. -/
def findCaseById (db : DB) (cid : Nat) : Option Case :=
  db.cases.find? (fun c => c.id = cid)

/-- HTTP method of a request; every handler in `src/main.py` branches on
`request.method` being GET or POST. -/
inductive Method where
  | get
  | post
deriving Repr, DecidableEq

/-- Outcome of a request handler: a rendered template (with the optional
`error` context variable), a redirect to a named route, `abort(404)`, or a
fatal error (an uncaught Python exception inside the handler). -/
inductive Response where
  | render (template : String) (error : Option String)
  | redirect (target : String)
  | notFound
  | fatal
deriving Repr, DecidableEq

/-- Whether a response is a rendered page (as opposed to a redirect,
404 or fatal error). -/
def Response.isRender : Response → Bool
  | .render _ _ => true
  | _ => false

/-- The fields read from the guest registration form. -/
structure GuestForm where
  name : String
  last_name : Option String
  email : String
  password : String
deriving Repr, DecidableEq

/-- The fields read from the detective registration form. -/
structure DetForm where
  name : String
  last_name : Option String
  email : String
  password : String
  detective_id : Option String
deriving Repr, DecidableEq

/-- The fields read from the user edit form on the user page. -/
structure EditForm where
  name : String
  last_name : Option String
  email : String
deriving Repr, DecidableEq

/-- The fields read from the case creation / case edit forms. -/
structure CaseForm where
  title : String
  description : Option String
  content : String
deriving Repr, DecidableEq

/-- Handler `register_guest` (`/register_guest`). The actor is `some u` when
`current_user.is_authenticated`. Password hashing (`bcrypt.generate_password_hash`)
is the parameter `hash`. -/
def register_guest (hash : String → String) (actor : Option User) (db : DB)
    (method : Method) (form : GuestForm) : Response × DB :=
  match actor with
  | some _ => (.redirect "index", db)
  | none =>
    match method with
    | .get => (.render "register.html" none, db)
    | .post =>
      let password_hashed := hash form.password
      match findUserByEmail db form.email with
      | some _ => (.render "register.html" (some SAME_EMAIL_ERROR), db)
      | none =>
        let user : User :=
          { id := db.nextUid, name := form.name, last_name := form.last_name,
            password := password_hashed, email := form.email, role := GUEST_ROLE,
            detective_id := none, approved := true }
        (.redirect "index",
          { db with users := db.users ++ [user], nextUid := db.nextUid + 1 })

/-- Handler `register_detective` (`/register_detective`). -/
def register_detective (hash : String → String) (actor : Option User) (db : DB)
    (method : Method) (form : DetForm) : Response × DB :=
  match actor with
  | some _ => (.redirect "index", db)
  | none =>
    match method with
    | .get => (.render "register.html" none, db)
    | .post =>
      let password_hashed := hash form.password
      match findUserByEmail db form.email with
      | some _ => (.render "register.html" (some SAME_EMAIL_ERROR), db)
      | none =>
        let user : User :=
          { id := db.nextUid, name := form.name, last_name := form.last_name,
            password := password_hashed, email := form.email, role := DETECTIVE_ROLE,
            detective_id := form.detective_id, approved := false }
        (.redirect "login?new_user=True",
          { db with users := db.users ++ [user], nextUid := db.nextUid + 1 })

/-- Handler `login` (`/login`). `check` is `bcrypt.check_password_hash`
(first argument: stored hash, second: submitted password). The second
component is the session established by `login_user` on success; the
database is never modified. -/
def login (check : String → String → Bool) (actor : Option User) (db : DB)
    (method : Method) (email password : String) : Response × Option Nat :=
  match actor with
  | some _ => (.redirect "index", none)
  | none =>
    match method with
    | .get => (.render "login.html" none, none)
    | .post =>
      match findUserByEmail db email with
      | none => (.redirect "login", none)
      | some user =>
        if check user.password password then
          if user.approved then (.redirect "index", some user.id)
          else (.redirect "login", none)
        else (.redirect "login", none)

/-- Handler `users` (`/users`): list users, Detective/Boss only.
Requires authentication (`@login_required`), hence a `User` actor. -/
def users_route (actor : User) (db : DB) : Response × DB :=
  if actor.role = DETECTIVE_ROLE ∨ actor.role = BOSS_ROLE then
    (.render "users.html" none, db)
  else (.redirect "index", db)

/-- Attribute assignment + commit on the user object returned by
`User.query.filter_by(_id=uid).first()` in the POST branch of `user_page`:
updates `name`, `last_name`, `email` of the first record with that id. -/
def updateUserFirst (l : List User) (uid : Nat) (form : EditForm) : List User :=
  match l with
  | [] => []
  | x :: xs =>
    if x.id = uid then
      { x with name := form.name, last_name := form.last_name, email := form.email } :: xs
    else x :: updateUserFirst xs uid form

/-- Handler `user_page` (`/users/<uid>`). GET: 404 when the user does not
exist, the rendered page for Detective/Boss or the user themself, otherwise a
redirect home. POST: assigns the form fields to the looked-up object with no
existence check, so a missing id is a fatal error (`None.name` raises). -/
def user_page (actor : User) (db : DB) (method : Method) (uid : Nat)
    (form : EditForm) : Response × DB :=
  match method with
  | .get =>
    match findUserById db uid with
    | none => (.notFound, db)
    | some user =>
      if actor.role = DETECTIVE_ROLE ∨ actor.role = BOSS_ROLE ∨ actor.id = user.id then
        (.render "user_page.html" none, db)
      else (.redirect "index", db)
  | .post =>
    match findUserById db uid with
    | none => (.fatal, db)
    | some _ =>
      (.redirect "user_page", { db with users := updateUserFirst db.users uid form })

/-- Handler `delete_user` (`/users/delete/<uid>`). GET redirects home. POST:
Boss only; deletes the record when it exists, otherwise redirects home. -/
def delete_user (actor : User) (db : DB) (method : Method) (uid : Nat) :
    Response × DB :=
  match method with
  | .get => (.redirect "index", db)
  | .post =>
    if actor.role ≠ BOSS_ROLE then (.redirect "index", db)
    else
      match findUserById db uid with
      | some _ =>
        (.redirect "users", { db with users := db.users.eraseP (fun x => x.id = uid) })
      | none => (.redirect "index", db)

/-- Handler `approvals` (`/users/pending`): Boss-only list of unapproved users. -/
def approvals (actor : User) (db : DB) : Response × DB :=
  if actor.role ≠ BOSS_ROLE then (.redirect "index", db)
  else (.render "users.html" none, db)

/-- `user.approved = True` + commit on the object returned by
`User.query.filter_by(_id=uid).first()`: sets `approved` on the first record
with that id. -/
def approveFirst (l : List User) (uid : Nat) : List User :=
  match l with
  | [] => []
  | x :: xs =>
    if x.id = uid then { x with approved := true } :: xs
    else x :: approveFirst xs uid

/-- Handler `approve` (`/users/<uid>/approved`). GET redirects home. POST:
Boss only; when the target exists, sets `approved = True`, attempts exactly
one notification email send inside a try/except that swallows any failure
(`sendOk` says whether the send would succeed; it cannot influence the
outcome), then commits and redirects to the approvals list. The third
component counts email send attempts. -/
def approve (sendOk : Bool) (actor : User) (db : DB) (method : Method)
    (uid : Nat) : Response × DB × Nat :=
  match method with
  | .get => (.redirect "index", db, 0)
  | .post =>
    if actor.role ≠ BOSS_ROLE then (.redirect "index", db, 0)
    else
      match findUserById db uid with
      | some _ =>
        -- `user.approved = True`; then `msg.send()` in a try with a
        -- swallow-all except: one attempt, result unused
        let _sendResult := sendOk
        (.redirect "approvals", { db with users := approveFirst db.users uid }, 1)
      | none => (.redirect "index", db, 0)

/-- Handler `new_case` (`/case/new`). The role gate runs before the method
branch: non-Detective/Boss actors are redirected home for GET and POST alike.
GET renders the creation form; POST inserts a case owned by the actor. -/
def new_case (actor : User) (db : DB) (method : Method) (form : CaseForm) :
    Response × DB :=
  if ¬ (actor.role = DETECTIVE_ROLE ∨ actor.role = BOSS_ROLE) then
    (.redirect "index", db)
  else
    match method with
    | .get => (.render "new_case.html" none, db)
    | .post =>
      let created_case : Case :=
        { id := db.nextCid, uid := actor.id, title := form.title,
          description := form.description, content := form.content }
      (.redirect "index",
        { db with cases := db.cases ++ [created_case], nextCid := db.nextCid + 1 })

/-- Attribute assignment + commit on the case object returned by
`Case.query.filter_by(_id=cid).first()` in the POST branch of `case_page`. -/
def updateCaseFirst (l : List Case) (cid : Nat) (form : CaseForm) : List Case :=
  match l with
  | [] => []
  | x :: xs =>
    if x.id = cid then
      { x with title := form.title, description := form.description,
               content := form.content } :: xs
    else x :: updateCaseFirst xs cid form

/-- Handler `case_page` (`/case/<cid>`). GET: 404 when the case does not
exist, otherwise the rendered page (no role check). POST: assigns the form
fields to the looked-up object with no existence check, so a missing id is a
fatal error. -/
def case_page (actor : User) (db : DB) (method : Method) (cid : Nat)
    (form : CaseForm) : Response × DB :=
  match method with
  | .get =>
    match findCaseById db cid with
    | none => (.notFound, db)
    | some _ => (.render "case_page.html" none, db)
  | .post =>
    match findCaseById db cid with
    | none => (.fatal, db)
    | some _ =>
      (.redirect "case_page", { db with cases := updateCaseFirst db.cases cid form })

/-- Handler `delete_case` (`/case/delete/<cid>`). GET redirects home. POST
evaluates `(current_user.role == BOSS_ROLE or current_user == case_to_delete.user)
and case_to_delete`: when the case is missing, a Boss short-circuits past the
ownership test and is redirected home, but any other actor dereferences
`None.user` — an uncaught `AttributeError`, i.e. a fatal error. When the case
exists, a Boss or the owner deletes it; anyone else is redirected home.
(ORM note: `current_user == case_to_delete.user` holds exactly when the
authenticated actor's id equals the case's `uid`.) -/
def delete_case (actor : User) (db : DB) (method : Method) (cid : Nat) :
    Response × DB :=
  match method with
  | .get => (.redirect "index", db)
  | .post =>
    match findCaseById db cid with
    | none =>
      if actor.role = BOSS_ROLE then (.redirect "index", db)
      else (.fatal, db)
    | some case_to_delete =>
      if actor.role = BOSS_ROLE ∨ actor.id = case_to_delete.uid then
        (.redirect "index", { db with cases := db.cases.eraseP (fun x => x.id = cid) })
      else (.redirect "index", db)

/-! ### Multi-request trace semantics

Each event is one mutating POST request (or a login attempt) by some client.
For routes behind `@login_required` the acting client's session carries a user
id; `load_user` resolves it against the `users` table, and a session whose
user no longer exists is anonymous, so the handler is never entered. Login
and registration requests are made by anonymous clients (an authenticated
client is redirected away before the form is processed). -/

/-- One request in a trace. -/
inductive Event where
  | regGuest (form : GuestForm)
  | regDetective (form : DetForm)
  | loginEv (email password : String)
  | editUserEv (actorId target : Nat) (form : EditForm)
  | delUserEv (actorId target : Nat)
  | approveEv (sendOk : Bool) (actorId target : Nat)
  | newCaseEv (actorId : Nat) (form : CaseForm)
  | editCaseEv (actorId target : Nat) (form : CaseForm)
  | delCaseEv (actorId target : Nat)
deriving Repr, DecidableEq

/-- Effect of one event on the database; the second component is the session
established by `login_user` during the event, if any. -/
def stepEv (hash : String → String) (check : String → String → Bool)
    (db : DB) : Event → DB × Option Nat
  | .regGuest f => ((register_guest hash none db .post f).2, none)
  | .regDetective f => ((register_detective hash none db .post f).2, none)
  | .loginEv e p => (db, (login check none db .post e p).2)
  | .editUserEv a t f =>
    match findUserById db a with
    | none => (db, none)
    | some u => ((user_page u db .post t f).2, none)
  | .delUserEv a t =>
    match findUserById db a with
    | none => (db, none)
    | some u => ((delete_user u db .post t).2, none)
  | .approveEv s a t =>
    match findUserById db a with
    | none => (db, none)
    | some u => ((approve s u db .post t).2.1, none)
  | .newCaseEv a f =>
    match findUserById db a with
    | none => (db, none)
    | some u => ((new_case u db .post f).2, none)
  | .editCaseEv a t f =>
    match findUserById db a with
    | none => (db, none)
    | some u => ((case_page u db .post t f).2, none)
  | .delCaseEv a t =>
    match findUserById db a with
    | none => (db, none)
    | some u => ((delete_case u db .post t).2, none)

/-- Run a sequence of requests; returns the final database and the list of
user ids that obtained an authenticated session along the way. -/
def runEvents (hash : String → String) (check : String → String → Bool) :
    DB → List Event → DB × List Nat
  | db, [] => (db, [])
  | db, e :: es =>
    let r := stepEv hash check db e
    let rest := runEvents hash check r.1 es
    (rest.1, r.2.toList ++ rest.2)

/-- Every stored user id is below the auto-increment counter (always true of
databases built by the application, since SQLite hands out fresh keys). -/
def UidsBounded (db : DB) : Prop :=
  ∀ u ∈ db.users, u.id < db.nextUid

/-- No user with id `a` is a Boss. -/
def NotBossId (db : DB) (a : Nat) : Prop :=
  ∀ u ∈ db.users, u.id = a → u.role ≠ BOSS_ROLE

/-- Every user with id `uid` is unapproved. -/
def UnapprovedId (db : DB) (uid : Nat) : Prop :=
  ∀ u ∈ db.users, u.id = uid → u.approved = false

/-! ### Sample data for concrete evaluations -/

/-- A concrete stand-in for `bcrypt.generate_password_hash`. -/
def hash0 : String → String := fun s => String.append "h" s

/-- A concrete stand-in for `bcrypt.check_password_hash`, matching `hash0`. -/
def check0 : String → String → Bool := fun h p => h = String.append "h" p

/-- The seeded Boss user. -/
def boss0 : User :=
  { id := 1, name := "Admin", last_name := none, password := hash0 "1234",
    email := "admin@email.com", role := BOSS_ROLE, detective_id := none,
    approved := true }

/-- A registered, not yet approved detective. -/
def det0 : User :=
  { id := 2, name := "Alice", last_name := none, password := hash0 "pw",
    email := "alice@x.com", role := DETECTIVE_ROLE, detective_id := some "D1",
    approved := false }

/-- A registered guest. -/
def guest0 : User :=
  { id := 3, name := "Bob", last_name := none, password := hash0 "pw2",
    email := "bob@x.com", role := GUEST_ROLE, detective_id := none,
    approved := true }

/-- A case owned by the detective. -/
def case0 : Case :=
  { id := 1, uid := 2, title := "Case1", description := none, content := "c" }

/-- A small concrete database. -/
def db0 : DB :=
  { users := [boss0, det0, guest0], cases := [case0], nextUid := 4, nextCid := 2 }

/-- A sample guest registration form. -/
def gform0 : GuestForm :=
  { name := "Carol", last_name := some "C", email := "carol@x.com", password := "p3" }

/-- A sample guest registration form reusing an existing email. -/
def gformDup0 : GuestForm :=
  { name := "Carol", last_name := some "C", email := "alice@x.com", password := "p3" }

/-- A sample detective registration form. -/
def dform0 : DetForm :=
  { name := "Dan", last_name := none, email := "dan@x.com", password := "p4",
    detective_id := some "D2" }

/-- A sample detective registration form reusing an existing email. -/
def dformDup0 : DetForm :=
  { name := "Dan", last_name := none, email := "bob@x.com", password := "p4",
    detective_id := some "D2" }

/-- A sample user edit form. -/
def eform0 : EditForm :=
  { name := "Alice", last_name := some "A", email := "alice@x.com" }

/-- A sample case form. -/
def cform0 : CaseForm :=
  { title := "Case2", description := some "d", content := "body" }

/-! ## Theorems -/

/-- Claim C3: a registration attempt (guest or detective) whose submitted
email exactly matches an existing user's email re-renders the registration
form with the duplicate-email error, and storage is unchanged. -/
theorem C3_duplicate_email_rejected (hash : String → String) (db : DB)
    (gf : GuestForm) (df : DetForm) (u v : User)
    (hg : findUserByEmail db gf.email = some u)
    (hd : findUserByEmail db df.email = some v) :
    register_guest hash none db .post gf
      = (.render "register.html" (some SAME_EMAIL_ERROR), db)
    ∧ register_detective hash none db .post df
      = (.render "register.html" (some SAME_EMAIL_ERROR), db) := by
  constructor
  · simp [register_guest, hg]
  · simp [register_detective, hd]

/-- Witness for C3 at a concrete database and forms. -/
theorem C3_duplicate_email_rejected_witness :
    findUserByEmail db0 gformDup0.email = some det0
    ∧ findUserByEmail db0 dformDup0.email = some guest0
    ∧ register_guest hash0 none db0 .post gformDup0
      = (.render "register.html" (some SAME_EMAIL_ERROR), db0)
    ∧ register_detective hash0 none db0 .post dformDup0
      = (.render "register.html" (some SAME_EMAIL_ERROR), db0) := by
  have h := C3_duplicate_email_rejected hash0 db0 gformDup0 dformDup0 det0 guest0
    (by decide) (by decide)
  exact ⟨by decide, by decide, h.1, h.2⟩

/-- Claim C5: a successful guest registration creates exactly one new record
with role Guest and approved=true; a successful detective registration
creates exactly one new record with role Detective and approved=false —
regardless of the submitted form input. -/
theorem C5_registration_role_and_approval (hash : String → String) (db : DB)
    (gf : GuestForm) (df : DetForm)
    (hg : findUserByEmail db gf.email = none)
    (hd : findUserByEmail db df.email = none) :
    (∃ u : User,
      (register_guest hash none db .post gf).2.users = db.users ++ [u]
      ∧ u.role = GUEST_ROLE ∧ u.approved = true)
    ∧ (∃ u : User,
      (register_detective hash none db .post df).2.users = db.users ++ [u]
      ∧ u.role = DETECTIVE_ROLE ∧ u.approved = false) := by
  constructor
  · refine ⟨⟨db.nextUid, gf.name, gf.last_name, hash gf.password, gf.email,
      GUEST_ROLE, none, true⟩, ?_, rfl, rfl⟩
    simp [register_guest, hg]
  · refine ⟨⟨db.nextUid, df.name, df.last_name, hash df.password, df.email,
      DETECTIVE_ROLE, df.detective_id, false⟩, ?_, rfl, rfl⟩
    simp [register_detective, hd]

/-- Witness for C5 at a concrete database and forms. -/
theorem C5_registration_role_and_approval_witness :
    findUserByEmail db0 gform0.email = none
    ∧ findUserByEmail db0 dform0.email = none
    ∧ ((∃ u : User,
        (register_guest hash0 none db0 .post gform0).2.users = db0.users ++ [u]
        ∧ u.role = GUEST_ROLE ∧ u.approved = true)
      ∧ (∃ u : User,
        (register_detective hash0 none db0 .post dform0).2.users = db0.users ++ [u]
        ∧ u.role = DETECTIVE_ROLE ∧ u.approved = false)) :=
  ⟨by decide, by decide,
   C5_registration_role_and_approval hash0 db0 gform0 dform0 (by decide) (by decide)⟩

/-- Claim C6: every failed login attempt — unknown email, wrong password, or
unapproved account — produces the identical response: a redirect to the login
page with no session and no distinguishing message. -/
theorem C6_login_failures_indistinguishable (check : String → String → Bool)
    (db : DB) (email password : String)
    (h : findUserByEmail db email = none
       ∨ ∃ u, findUserByEmail db email = some u
           ∧ (check u.password password = false ∨ u.approved = false)) :
    login check none db .post email password = (.redirect "login", none) := by
  rcases h with h | ⟨u, hu, h⟩
  · simp [login, h]
  · rcases h with h | h
    · simp [login, hu, h]
    · cases hc : check u.password password <;> simp [login, hu, hc, h]

/-- Witness for C6: all three failure causes on a concrete database. -/
theorem C6_login_failures_indistinguishable_witness :
    (findUserByEmail db0 "nobody@x.com" = none
      ∧ login check0 none db0 .post "nobody@x.com" "pw" = (.redirect "login", none))
    ∧ (findUserByEmail db0 "bob@x.com" = some guest0
      ∧ check0 guest0.password "wrong" = false
      ∧ login check0 none db0 .post "bob@x.com" "wrong" = (.redirect "login", none))
    ∧ (findUserByEmail db0 "alice@x.com" = some det0
      ∧ det0.approved = false
      ∧ login check0 none db0 .post "alice@x.com" "pw" = (.redirect "login", none)) :=
  ⟨⟨by decide, C6_login_failures_indistinguishable check0 db0 "nobody@x.com" "pw"
      (Or.inl (by decide))⟩,
   ⟨by decide, by decide,
    C6_login_failures_indistinguishable check0 db0 "bob@x.com" "wrong"
      (Or.inr ⟨guest0, by decide, Or.inl (by decide)⟩)⟩,
   ⟨by decide, by decide,
    C6_login_failures_indistinguishable check0 db0 "alice@x.com" "pw"
      (Or.inr ⟨det0, by decide, Or.inr (by decide)⟩)⟩⟩

/-- Claim C9: a POST to the user edit endpoint or the case edit endpoint
whose target id does not exist dereferences the missing record with no
not-found check and is a fatal error. -/
theorem C9_edit_missing_target_fatal (actor : User) (db : DB) (uid cid : Nat)
    (ef : EditForm) (cf : CaseForm)
    (hu : findUserById db uid = none) (hc : findCaseById db cid = none) :
    user_page actor db .post uid ef = (.fatal, db)
    ∧ case_page actor db .post cid cf = (.fatal, db) := by
  constructor
  · simp [user_page, hu]
  · simp [case_page, hc]

/-- Witness for C9 at a concrete database and missing ids. -/
theorem C9_edit_missing_target_fatal_witness :
    findUserById db0 99 = none ∧ findCaseById db0 99 = none
    ∧ user_page guest0 db0 .post 99 eform0 = (.fatal, db0)
    ∧ case_page guest0 db0 .post 99 cform0 = (.fatal, db0) := by
  have h := C9_edit_missing_target_fatal guest0 db0 99 99 eform0 cform0
    (by decide) (by decide)
  exact ⟨by decide, by decide, h.1, h.2⟩

/-- Claim C10: on GET /users/uid the existence check runs before the
authorization check, so a Guest actor querying a foreign uid receives 404
when the user is missing and a home redirect when the user exists — two
distinguishable responses. -/
theorem C10_user_page_get_leaks_existence (actor : User) (db : DB) (uid : Nat)
    (ef : EditForm) (hrole : actor.role = GUEST_ROLE) (hid : actor.id ≠ uid) :
    (findUserById db uid = none →
      user_page actor db .get uid ef = (.notFound, db))
    ∧ (∀ u, findUserById db uid = some u →
      user_page actor db .get uid ef = (.redirect "index", db))
    ∧ Response.notFound ≠ Response.redirect "index" := by
  refine ⟨fun h => by simp [user_page, h], fun u hu => ?_, by decide⟩
  have huid : u.id = uid := by
    have := List.find?_some hu
    simpa using this
  have : ¬ (actor.role = DETECTIVE_ROLE ∨ actor.role = BOSS_ROLE ∨ actor.id = u.id) := by
    simp [hrole, GUEST_ROLE, DETECTIVE_ROLE, BOSS_ROLE, huid, hid]
  simp [user_page, hu, this]

/-- Witness for C10: a Guest probing uid 2 (exists) and uid 99 (missing). -/
theorem C10_user_page_get_leaks_existence_witness :
    guest0.role = GUEST_ROLE ∧ guest0.id ≠ 99 ∧ guest0.id ≠ 2
    ∧ user_page guest0 db0 .get 99 eform0 = (.notFound, db0)
    ∧ user_page guest0 db0 .get 2 eform0 = (.redirect "index", db0) := by
  have h99 := C10_user_page_get_leaks_existence guest0 db0 99 eform0
    (by decide) (by decide)
  have h2 := C10_user_page_get_leaks_existence guest0 db0 2 eform0
    (by decide) (by decide)
  exact ⟨by decide, by decide, by decide, h99.1 (by decide), h2.2.1 det0 (by decide)⟩

/-- Claim C1 evaluated at concrete inputs: deleting a nonexistent user id is
a no-op redirect for every role, and a Boss deleting a nonexistent case id is
a no-op redirect — but a Detective or Guest POSTing to delete a nonexistent
case id hits the `case_to_delete.user` dereference of `None` and gets a
fatal error, contradicting the claim. -/
theorem C1_delete_missing_target :
    delete_user boss0 db0 .post 99 = (.redirect "index", db0)
    ∧ delete_user det0 db0 .post 99 = (.redirect "index", db0)
    ∧ delete_user guest0 db0 .post 99 = (.redirect "index", db0)
    ∧ delete_case boss0 db0 .post 99 = (.redirect "index", db0)
    ∧ delete_case det0 db0 .post 99 = (.fatal, db0)
    ∧ delete_case guest0 db0 .post 99 = (.fatal, db0) := by
  refine ⟨?_, ?_, ?_, ?_, ?_, ?_⟩ <;> decide

/-- After `approveFirst l uid`, looking up `uid` finds the approved copy of
the record the lookup found before. -/
theorem find_id_approveFirst {l : List User} {uid : Nat} {u : User}
    (h : l.find? (fun x => x.id = uid) = some u) :
    (approveFirst l uid).find? (fun x => x.id = uid)
      = some { u with approved := true } := by
  induction l with
  | nil => simp at h
  | cons x xs ih =>
    by_cases hx : x.id = uid
    · rw [List.find?_cons_of_pos _ (by simpa using hx)] at h
      cases h
      simp only [approveFirst, if_pos hx]
      rw [List.find?_cons_of_pos _ (by simpa using hx)]
    · rw [List.find?_cons_of_neg _ (by simpa using hx)] at h
      simp only [approveFirst, if_neg hx]
      rw [List.find?_cons_of_neg _ (by simpa using hx)]
      exact ih h

/-- Claim C4: a successful approval of an existing user by a Boss attempts
exactly one notification send; the outcome (committed approved=true flag,
redirect to the approvals list) is identical whether the send succeeds or
fails, because the failure is swallowed. -/
theorem C4_approval_single_notification (sendOk : Bool) (actor : User)
    (db : DB) (uid : Nat) (u : User) (hrole : actor.role = BOSS_ROLE)
    (hu : findUserById db uid = some u) :
    (approve sendOk actor db .post uid).2.2 = 1
    ∧ approve sendOk actor db .post uid = approve true actor db .post uid
    ∧ (approve sendOk actor db .post uid).1 = .redirect "approvals"
    ∧ findUserById (approve sendOk actor db .post uid).2.1 uid
        = some { u with approved := true } := by
  have h1 : approve sendOk actor db .post uid
      = (.redirect "approvals", { db with users := approveFirst db.users uid }, 1) := by
    simp [approve, hrole, hu]
  have h2 : approve true actor db .post uid
      = (.redirect "approvals", { db with users := approveFirst db.users uid }, 1) := by
    simp [approve, hrole, hu]
  have h3 : db.users.find? (fun x => x.id = uid) = some u := hu
  refine ⟨by rw [h1], by rw [h1, h2], by rw [h1], ?_⟩
  rw [h1]
  exact find_id_approveFirst h3

/-- Witness for C4: the Boss approves the pending detective; send failure
and send success agree. -/
theorem C4_approval_single_notification_witness :
    boss0.role = BOSS_ROLE ∧ findUserById db0 2 = some det0
    ∧ (approve false boss0 db0 .post 2).2.2 = 1
    ∧ approve false boss0 db0 .post 2 = approve true boss0 db0 .post 2
    ∧ (approve false boss0 db0 .post 2).1 = .redirect "approvals"
    ∧ findUserById (approve false boss0 db0 .post 2).2.1 2
        = some { det0 with approved := true } := by
  have h := C4_approval_single_notification false boss0 db0 2 det0
    (by decide) (by decide)
  exact ⟨by decide, by decide, h.1, h.2.1, h.2.2.1, h.2.2.2⟩

/-- Claim C2: the role matrix. With an existing target, POST outcomes are:
case creation mutates for Detective/Boss and is a home redirect with no
mutation otherwise; case deletion mutates for Boss or the owner and is a
home redirect with no mutation otherwise; approval and user deletion mutate
for Boss and are home redirects with no mutation otherwise. -/
theorem C2_role_matrix (actor : User) (db : DB) (cf : CaseForm)
    (uid cid : Nat) (u : User) (c : Case) (sendOk : Bool)
    (hu : findUserById db uid = some u) (hc : findCaseById db cid = some c) :
    (actor.role = DETECTIVE_ROLE ∨ actor.role = BOSS_ROLE →
      new_case actor db .post cf
        = (.redirect "index",
           { db with
             cases := db.cases ++
               [⟨db.nextCid, actor.id, cf.title, cf.description, cf.content⟩],
             nextCid := db.nextCid + 1 }))
    ∧ (¬ (actor.role = DETECTIVE_ROLE ∨ actor.role = BOSS_ROLE) →
      new_case actor db .post cf = (.redirect "index", db))
    ∧ (actor.role = BOSS_ROLE ∨ actor.id = c.uid →
      delete_case actor db .post cid
        = (.redirect "index",
           { db with cases := db.cases.eraseP (fun x => x.id = cid) }))
    ∧ (¬ (actor.role = BOSS_ROLE ∨ actor.id = c.uid) →
      delete_case actor db .post cid = (.redirect "index", db))
    ∧ (actor.role = BOSS_ROLE →
      approve sendOk actor db .post uid
        = (.redirect "approvals", { db with users := approveFirst db.users uid }, 1))
    ∧ (actor.role ≠ BOSS_ROLE →
      approve sendOk actor db .post uid = (.redirect "index", db, 0))
    ∧ (actor.role = BOSS_ROLE →
      delete_user actor db .post uid
        = (.redirect "users", { db with users := db.users.eraseP (fun x => x.id = uid) }))
    ∧ (actor.role ≠ BOSS_ROLE →
      delete_user actor db .post uid = (.redirect "index", db)) := by
  refine ⟨fun h => ?_, fun h => ?_, fun h => ?_, fun h => ?_,
    fun h => ?_, fun h => ?_, fun h => ?_, fun h => ?_⟩
  · simp [new_case, h]
  · simp [new_case, h]
  · simp [delete_case, hc, h]
  · push_neg at h
    simp [delete_case, hc, h.1, h.2]
  · simp [approve, h, hu]
  · simp [approve, h]
  · simp [delete_user, h, hu]
  · simp [delete_user, h]

/-- Witness for C2: the matrix exercised on a concrete database — a Guest
cannot create a case, a Detective deletes their own case, a Detective cannot
delete another user, the Boss approves and deletes. -/
theorem C2_role_matrix_witness :
    findUserById db0 2 = some det0 ∧ findCaseById db0 1 = some case0
    ∧ new_case guest0 db0 .post cform0 = (.redirect "index", db0)
    ∧ delete_case det0 db0 .post 1
        = (.redirect "index",
           { db0 with cases := db0.cases.eraseP (fun x => x.id = 1) })
    ∧ delete_user det0 db0 .post 2 = (.redirect "index", db0)
    ∧ delete_user boss0 db0 .post 2
        = (.redirect "users",
           { db0 with users := db0.users.eraseP (fun x => x.id = 2) })
    ∧ approve true boss0 db0 .post 2
        = (.redirect "approvals", { db0 with users := approveFirst db0.users 2 }, 1) := by
  have hg := C2_role_matrix guest0 db0 cform0 2 1 det0 case0 true
    (by decide) (by decide)
  have hd := C2_role_matrix det0 db0 cform0 2 1 det0 case0 true
    (by decide) (by decide)
  have hb := C2_role_matrix boss0 db0 cform0 2 1 det0 case0 true
    (by decide) (by decide)
  exact ⟨by decide, by decide, hg.2.1 (by decide), hd.2.2.1 (by decide),
    hd.2.2.2.2.2.2.2 (by decide), hb.2.2.2.2.2.2.1 (by decide),
    hb.2.2.2.2.1 (by decide)⟩

/-- Claim C8 counterexample: on the user-delete route a GET does not render a
form or confirmation page — it redirects home; and on the user view/edit
route a missing-target GET returns a 404, not a redirect to the home page.
Both falsify the claim as stated. -/
theorem C8_counterexample_get_behaviour :
    (delete_user boss0 db0 .get 2).1 = Response.redirect "index"
    ∧ Response.isRender (delete_user boss0 db0 .get 2).1 = false
    ∧ (user_page guest0 db0 .get 99 eform0).1 = Response.notFound
    ∧ Response.notFound ≠ Response.redirect "index" := by
  refine ⟨?_, ?_, ?_, ?_⟩ <;> decide

/-- Claim C8 as amended: for every mutating route a GET performs no mutation —
the delete and approve routes redirect home on GET, the case-creation route
renders its form on GET for Detective/Boss (others are redirected home), and
the view/edit pages render on GET without mutating — only the POST performs
the mutation, and unauthorized POSTs redirect to the home page with no
mutation. -/
theorem C8_get_renders_post_mutates (actor : User) (db : DB) (uid cid : Nat)
    (ef : EditForm) (cf : CaseForm) (sendOk : Bool) :
    delete_user actor db .get uid = (.redirect "index", db)
    ∧ approve sendOk actor db .get uid = (.redirect "index", db, 0)
    ∧ delete_case actor db .get cid = (.redirect "index", db)
    ∧ (user_page actor db .get uid ef).2 = db
    ∧ (case_page actor db .get cid cf).2 = db
    ∧ (new_case actor db .get cf).2 = db
    ∧ (actor.role = DETECTIVE_ROLE ∨ actor.role = BOSS_ROLE →
        new_case actor db .get cf = (.render "new_case.html" none, db))
    ∧ (∀ c, findCaseById db cid = some c →
        case_page actor db .get cid cf = (.render "case_page.html" none, db))
    ∧ (actor.role ≠ BOSS_ROLE →
        delete_user actor db .post uid = (.redirect "index", db))
    ∧ (actor.role ≠ BOSS_ROLE →
        approve sendOk actor db .post uid = (.redirect "index", db, 0))
    ∧ (¬ (actor.role = DETECTIVE_ROLE ∨ actor.role = BOSS_ROLE) →
        new_case actor db .post cf = (.redirect "index", db)) := by
  refine ⟨rfl, rfl, rfl, ?_, ?_, ?_, fun h => by simp [new_case, h],
    fun c hc => by simp [case_page, hc], fun h => by simp [delete_user, h],
    fun h => by simp [approve, h], fun h => by simp [new_case, h]⟩
  · cases hu : findUserById db uid with
    | none => simp [user_page, hu]
    | some u =>
      by_cases h : actor.role = DETECTIVE_ROLE ∨ actor.role = BOSS_ROLE ∨ actor.id = u.id
      · simp [user_page, hu, h]
      · simp [user_page, hu, h]
  · cases hc : findCaseById db cid with
    | none => simp [case_page, hc]
    | some c => simp [case_page, hc]
  · by_cases h : actor.role = DETECTIVE_ROLE ∨ actor.role = BOSS_ROLE
    · simp [new_case, h]
    · simp [new_case, h]

/-- Witness for C8 (amended) at concrete inputs. -/
theorem C8_get_renders_post_mutates_witness :
    delete_user det0 db0 .get 2 = (.redirect "index", db0)
    ∧ new_case det0 db0 .get cform0 = (.render "new_case.html" none, db0)
    ∧ findCaseById db0 1 = some case0
    ∧ case_page guest0 db0 .get 1 cform0 = (.render "case_page.html" none, db0)
    ∧ delete_user det0 db0 .post 2 = (.redirect "index", db0) := by
  have hd := C8_get_renders_post_mutates det0 db0 2 1 eform0 cform0 true
  have hg := C8_get_renders_post_mutates guest0 db0 2 1 eform0 cform0 true
  exact ⟨hd.1, hd.2.2.2.2.2.2.1 (by decide), by decide,
    hg.2.2.2.2.2.2.2.1 case0 (by decide), hd.2.2.2.2.2.2.2.2.1 (by decide)⟩

/-- A record of `updateUserFirst l uid f` descends from a record of `l` with
the same id, role and approval flag (the edit touches only name, last name
and email). -/
theorem mem_updateUserFirst {l : List User} {uid : Nat} {f : EditForm}
    {w : User} (h : w ∈ updateUserFirst l uid f) :
    ∃ w' ∈ l, w.id = w'.id ∧ w.role = w'.role ∧ w.approved = w'.approved := by
  induction l with
  | nil => simp [updateUserFirst] at h
  | cons x xs ih =>
    by_cases hx : x.id = uid
    · simp only [updateUserFirst, if_pos hx, List.mem_cons] at h
      rcases h with h | h
      · exact ⟨x, List.mem_cons_self x xs, by subst h; exact rfl,
          by subst h; exact rfl, by subst h; exact rfl⟩
      · exact ⟨w, List.mem_cons_of_mem x h, rfl, rfl, rfl⟩
    · simp only [updateUserFirst, if_neg hx, List.mem_cons] at h
      rcases h with h | h
      · exact ⟨x, List.mem_cons_self x xs, by subst h; exact rfl,
          by subst h; exact rfl, by subst h; exact rfl⟩
      · rcases ih h with ⟨w', hw', h1, h2, h3⟩
        exact ⟨w', List.mem_cons_of_mem x hw', h1, h2, h3⟩

/-- A record of `approveFirst l t` descends from a record of `l` with the
same id and role, and an unchanged approval flag unless its id is `t`. -/
theorem mem_approveFirst {l : List User} {t : Nat} {w : User}
    (h : w ∈ approveFirst l t) :
    ∃ w' ∈ l, w.id = w'.id ∧ w.role = w'.role
      ∧ (w.approved = w'.approved ∨ w.id = t) := by
  induction l with
  | nil => simp [approveFirst] at h
  | cons x xs ih =>
    by_cases hx : x.id = t
    · simp only [approveFirst, if_pos hx, List.mem_cons] at h
      rcases h with h | h
      · exact ⟨x, List.mem_cons_self x xs, by subst h; exact rfl,
          by subst h; exact rfl, Or.inr (by subst h; exact hx)⟩
      · exact ⟨w, List.mem_cons_of_mem x h, rfl, rfl, Or.inl rfl⟩
    · simp only [approveFirst, if_neg hx, List.mem_cons] at h
      rcases h with h | h
      · exact ⟨x, List.mem_cons_self x xs, by subst h; exact rfl,
          by subst h; exact rfl, Or.inl (by subst h; exact rfl)⟩
      · rcases ih h with ⟨w', hw', h1, h2, h3⟩
        exact ⟨w', List.mem_cons_of_mem x hw', h1, h2, h3⟩

/-- If the same record is the first match both by email and by id, then after
`approveFirst` the email lookup finds its approved copy. -/
theorem find_email_approveFirst {l : List User} {e : String} {n : Nat}
    {u : User} (he : l.find? (fun x => x.email = e) = some u)
    (hn : l.find? (fun x => x.id = n) = some u) :
    (approveFirst l n).find? (fun x => x.email = e)
      = some { u with approved := true } := by
  induction l with
  | nil => simp at he
  | cons x xs ih =>
    by_cases hid : x.id = n
    · rw [List.find?_cons_of_pos _ (by simpa using hid)] at hn
      cases hn
      by_cases hem : u.email = e
      · simp only [approveFirst, if_pos hid]
        rw [List.find?_cons_of_pos _ (by simpa using hem)]
      · rw [List.find?_cons_of_neg _ (by simpa using hem)] at he
        have := List.find?_some he
        simp at this
        exact absurd this hem
    · rw [List.find?_cons_of_neg _ (by simpa using hid)] at hn
      by_cases hem : x.email = e
      · rw [List.find?_cons_of_pos _ (by simpa using hem)] at he
        cases he
        have := List.find?_some hn
        simp at this
        exact absurd this hid
      · rw [List.find?_cons_of_neg _ (by simpa using hem)] at he
        simp only [approveFirst, if_neg hid]
        rw [List.find?_cons_of_neg _ (by simpa using hem)]
        exact ih he hn

/-- The auto-increment user id counter never decreases across a request. -/
theorem stepEv_nextUid_mono (hash : String → String)
    (check : String → String → Bool) (db : DB) (e : Event) :
    db.nextUid ≤ (stepEv hash check db e).1.nextUid := by
  cases e with
  | regGuest f =>
    cases hfe : findUserByEmail db f.email <;>
      simp [stepEv, register_guest, hfe, Nat.le_succ]
  | regDetective f =>
    cases hfe : findUserByEmail db f.email <;>
      simp [stepEv, register_detective, hfe, Nat.le_succ]
  | loginEv em p => simp [stepEv]
  | editUserEv a t f =>
    cases hfa : findUserById db a with
    | none => simp [stepEv, hfa]
    | some u =>
      cases hft : findUserById db t <;> simp [stepEv, hfa, user_page, hft]
  | delUserEv a t =>
    cases hfa : findUserById db a with
    | none => simp [stepEv, hfa]
    | some u =>
      by_cases hr : u.role = BOSS_ROLE
      · cases hft : findUserById db t <;>
          simp [stepEv, hfa, delete_user, hr, hft]
      · simp [stepEv, hfa, delete_user, hr]
  | approveEv s a t =>
    cases hfa : findUserById db a with
    | none => simp [stepEv, hfa]
    | some u =>
      by_cases hr : u.role = BOSS_ROLE
      · cases hft : findUserById db t <;> simp [stepEv, hfa, approve, hr, hft]
      · simp [stepEv, hfa, approve, hr]
  | newCaseEv a f =>
    cases hfa : findUserById db a with
    | none => simp [stepEv, hfa]
    | some u =>
      by_cases hr : u.role = DETECTIVE_ROLE ∨ u.role = BOSS_ROLE <;>
        simp [stepEv, hfa, new_case, hr]
  | editCaseEv a t f =>
    cases hfa : findUserById db a with
    | none => simp [stepEv, hfa]
    | some u =>
      cases hft : findCaseById db t <;> simp [stepEv, hfa, case_page, hft]
  | delCaseEv a t =>
    cases hfa : findUserById db a with
    | none => simp [stepEv, hfa]
    | some u =>
      cases hft : findCaseById db t with
      | none =>
        by_cases hr : u.role = BOSS_ROLE <;>
          simp [stepEv, hfa, delete_case, hft, hr]
      | some c =>
        by_cases hr : u.role = BOSS_ROLE ∨ u.id = c.uid <;>
          simp [stepEv, hfa, delete_case, hft, hr]

/-- Where user records after one request come from: every record either
descends from a pre-step record with the same id and role — with the same
approval flag unless the event was an approval of exactly that id performed
by a Boss — or is a freshly registered Guest or Detective with the fresh id. -/
theorem stepEv_users_descend (hash : String → String)
    (check : String → String → Bool) (db : DB) (e : Event) :
    ∀ w ∈ (stepEv hash check db e).1.users,
      (∃ w' ∈ db.users, w.id = w'.id ∧ w.role = w'.role
        ∧ (w.approved = w'.approved
           ∨ ∃ s a u, e = Event.approveEv s a w.id
             ∧ findUserById db a = some u ∧ u.role = BOSS_ROLE))
      ∨ (w.id = db.nextUid ∧ (w.role = GUEST_ROLE ∨ w.role = DETECTIVE_ROLE)) := by
  intro w hw
  cases e with
  | regGuest f =>
    cases hfe : findUserByEmail db f.email with
    | some u =>
      simp only [stepEv] at hw
      simp [register_guest, hfe] at hw
      exact Or.inl ⟨w, hw, rfl, rfl, Or.inl rfl⟩
    | none =>
      simp only [stepEv] at hw
      simp [register_guest, hfe] at hw
      rcases hw with hw | hw
      · exact Or.inl ⟨w, hw, rfl, rfl, Or.inl rfl⟩
      · subst hw; exact Or.inr ⟨rfl, Or.inl rfl⟩
  | regDetective f =>
    cases hfe : findUserByEmail db f.email with
    | some u =>
      simp only [stepEv] at hw
      simp [register_detective, hfe] at hw
      exact Or.inl ⟨w, hw, rfl, rfl, Or.inl rfl⟩
    | none =>
      simp only [stepEv] at hw
      simp [register_detective, hfe] at hw
      rcases hw with hw | hw
      · exact Or.inl ⟨w, hw, rfl, rfl, Or.inl rfl⟩
      · subst hw; exact Or.inr ⟨rfl, Or.inr rfl⟩
  | loginEv em p =>
    simp only [stepEv] at hw
    exact Or.inl ⟨w, hw, rfl, rfl, Or.inl rfl⟩
  | editUserEv a t f =>
    cases hfa : findUserById db a with
    | none =>
      simp only [stepEv, hfa] at hw
      exact Or.inl ⟨w, hw, rfl, rfl, Or.inl rfl⟩
    | some u =>
      cases hft : findUserById db t with
      | none =>
        simp only [stepEv, hfa] at hw
        simp [user_page, hft] at hw
        exact Or.inl ⟨w, hw, rfl, rfl, Or.inl rfl⟩
      | some v =>
        simp only [stepEv, hfa] at hw
        simp [user_page, hft] at hw
        rcases mem_updateUserFirst hw with ⟨w', hw', h1, h2, h3⟩
        exact Or.inl ⟨w', hw', h1, h2, Or.inl h3⟩
  | delUserEv a t =>
    cases hfa : findUserById db a with
    | none =>
      simp only [stepEv, hfa] at hw
      exact Or.inl ⟨w, hw, rfl, rfl, Or.inl rfl⟩
    | some u =>
      by_cases hr : u.role = BOSS_ROLE
      · cases hft : findUserById db t with
        | none =>
          simp only [stepEv, hfa] at hw
          simp [delete_user, hr, hft] at hw
          exact Or.inl ⟨w, hw, rfl, rfl, Or.inl rfl⟩
        | some v =>
          simp only [stepEv, hfa] at hw
          simp [delete_user, hr, hft] at hw
          exact Or.inl ⟨w, List.mem_of_mem_eraseP hw, rfl, rfl, Or.inl rfl⟩
      · simp only [stepEv, hfa] at hw
        simp [delete_user, hr] at hw
        exact Or.inl ⟨w, hw, rfl, rfl, Or.inl rfl⟩
  | approveEv s a t =>
    cases hfa : findUserById db a with
    | none =>
      simp only [stepEv, hfa] at hw
      exact Or.inl ⟨w, hw, rfl, rfl, Or.inl rfl⟩
    | some u =>
      by_cases hr : u.role = BOSS_ROLE
      · cases hft : findUserById db t with
        | none =>
          simp only [stepEv, hfa] at hw
          simp [approve, hr, hft] at hw
          exact Or.inl ⟨w, hw, rfl, rfl, Or.inl rfl⟩
        | some v =>
          simp only [stepEv, hfa] at hw
          simp [approve, hr, hft] at hw
          rcases mem_approveFirst hw with ⟨w', hw', h1, h2, h3 | h3⟩
          · exact Or.inl ⟨w', hw', h1, h2, Or.inl h3⟩
          · exact Or.inl ⟨w', hw', h1, h2, Or.inr ⟨s, a, u, by rw [h3], hfa, hr⟩⟩
      · simp only [stepEv, hfa] at hw
        simp [approve, hr] at hw
        exact Or.inl ⟨w, hw, rfl, rfl, Or.inl rfl⟩
  | newCaseEv a f =>
    cases hfa : findUserById db a with
    | none =>
      simp only [stepEv, hfa] at hw
      exact Or.inl ⟨w, hw, rfl, rfl, Or.inl rfl⟩
    | some u =>
      by_cases hr : u.role = DETECTIVE_ROLE ∨ u.role = BOSS_ROLE
      · simp only [stepEv, hfa] at hw
        simp [new_case, hr] at hw
        exact Or.inl ⟨w, hw, rfl, rfl, Or.inl rfl⟩
      · simp only [stepEv, hfa] at hw
        simp [new_case, hr] at hw
        exact Or.inl ⟨w, hw, rfl, rfl, Or.inl rfl⟩
  | editCaseEv a t f =>
    cases hfa : findUserById db a with
    | none =>
      simp only [stepEv, hfa] at hw
      exact Or.inl ⟨w, hw, rfl, rfl, Or.inl rfl⟩
    | some u =>
      cases hft : findCaseById db t with
      | none =>
        simp only [stepEv, hfa] at hw
        simp [case_page, hft] at hw
        exact Or.inl ⟨w, hw, rfl, rfl, Or.inl rfl⟩
      | some c =>
        simp only [stepEv, hfa] at hw
        simp [case_page, hft] at hw
        exact Or.inl ⟨w, hw, rfl, rfl, Or.inl rfl⟩
  | delCaseEv a t =>
    cases hfa : findUserById db a with
    | none =>
      simp only [stepEv, hfa] at hw
      exact Or.inl ⟨w, hw, rfl, rfl, Or.inl rfl⟩
    | some u =>
      cases hft : findCaseById db t with
      | none =>
        by_cases hr : u.role = BOSS_ROLE
        · simp only [stepEv, hfa] at hw
          simp [delete_case, hft, hr] at hw
          exact Or.inl ⟨w, hw, rfl, rfl, Or.inl rfl⟩
        · simp only [stepEv, hfa] at hw
          simp [delete_case, hft, hr] at hw
          exact Or.inl ⟨w, hw, rfl, rfl, Or.inl rfl⟩
      | some c =>
        by_cases hr : u.role = BOSS_ROLE ∨ u.id = c.uid
        · simp only [stepEv, hfa] at hw
          simp [delete_case, hft, hr] at hw
          exact Or.inl ⟨w, hw, rfl, rfl, Or.inl rfl⟩
        · simp only [stepEv, hfa] at hw
          simp [delete_case, hft, hr] at hw
          exact Or.inl ⟨w, hw, rfl, rfl, Or.inl rfl⟩

/-- No request can turn a non-Boss id into a Boss: roles of surviving records
are unchanged and freshly registered users are Guests or Detectives. -/
theorem stepEv_notBoss (hash : String → String) (check : String → String → Bool)
    (db : DB) (e : Event) (b : Nat) (h : NotBossId db b) :
    NotBossId (stepEv hash check db e).1 b := by
  intro w hw hid
  rcases stepEv_users_descend hash check db e w hw with
    ⟨w', hw', h1, h2, _⟩ | ⟨_, hrole⟩
  · rw [h2]
    exact h w' hw' (h1 ▸ hid)
  · rcases hrole with hrole | hrole <;>
      simp [hrole, GUEST_ROLE, DETECTIVE_ROLE, BOSS_ROLE]

/-- If every record with id `uid` is unapproved, and the request is not a
Boss-performed approval of `uid`, every record with id `uid` stays
unapproved after the request. -/
theorem stepEv_unapproved (hash : String → String)
    (check : String → String → Bool) (db : DB) (e : Event) (uid : Nat)
    (hlt : uid < db.nextUid) (hun : UnapprovedId db uid)
    (hna : ∀ s a, e = Event.approveEv s a uid → NotBossId db a) :
    UnapprovedId (stepEv hash check db e).1 uid := by
  intro w hw hid
  rcases stepEv_users_descend hash check db e w hw with
    ⟨w', hw', h1, h2, h3 | h3⟩ | ⟨hnew, _⟩
  · rw [h3]
    exact hun w' hw' (h1 ▸ hid)
  · rcases h3 with ⟨s, a, u, he, hfa, hr⟩
    rw [hid] at he
    have hfa' : db.users.find? (fun x => x.id = a) = some u := hfa
    have hmem : u ∈ db.users := List.mem_of_find?_eq_some hfa'
    have hida : u.id = a := by simpa using List.find?_some hfa'
    exact absurd hr (hna s a he u hmem hida)
  · rw [hid] at hnew
    exact absurd hnew (Nat.ne_of_lt hlt)

/-- A request never establishes a session for an id all of whose records are
unapproved: only `login_user` creates sessions, and it requires
`approved=True`. -/
theorem stepEv_session (hash : String → String) (check : String → String → Bool)
    (db : DB) (e : Event) (uid : Nat) (hun : UnapprovedId db uid) :
    (stepEv hash check db e).2 ≠ some uid := by
  cases e with
  | regGuest f => simp [stepEv]
  | regDetective f => simp [stepEv]
  | loginEv em p =>
    cases hfe : findUserByEmail db em with
    | none => simp [stepEv, login, hfe]
    | some u =>
      by_cases hc : check u.password p
      · by_cases ha : u.approved
        · have hfe' : db.users.find? (fun x => x.email = em) = some u := hfe
          have hmem : u ∈ db.users := List.mem_of_find?_eq_some hfe'
          simp only [stepEv]
          simp [login, hfe, hc, ha]
          intro hcontra
          have := hun u hmem hcontra
          rw [this] at ha
          exact absurd ha (by simp)
        · simp [stepEv, login, hfe, hc, ha]
      · simp [stepEv, login, hfe, hc]
  | editUserEv a t f =>
    cases hfa : findUserById db a <;> simp [stepEv, hfa]
  | delUserEv a t =>
    cases hfa : findUserById db a <;> simp [stepEv, hfa]
  | approveEv s a t =>
    cases hfa : findUserById db a <;> simp [stepEv, hfa]
  | newCaseEv a f =>
    cases hfa : findUserById db a <;> simp [stepEv, hfa]
  | editCaseEv a t f =>
    cases hfa : findUserById db a <;> simp [stepEv, hfa]
  | delCaseEv a t =>
    cases hfa : findUserById db a <;> simp [stepEv, hfa]

/-- Trace invariant: starting from a database where every record with id
`uid` is unapproved and `uid` is below the id counter, a request sequence
containing no approval of `uid` by a (current or future) Boss keeps every
`uid` record unapproved and never establishes a session for `uid`. -/
theorem runEvents_unapproved (hash : String → String)
    (check : String → String → Bool) (uid : Nat) :
    ∀ (evs : List Event) (db : DB),
    uid < db.nextUid → UnapprovedId db uid →
    (∀ s a, Event.approveEv s a uid ∈ evs → NotBossId db a) →
    UnapprovedId (runEvents hash check db evs).1 uid
    ∧ uid ∉ (runEvents hash check db evs).2 := by
  intro evs
  induction evs with
  | nil =>
    intro db _ h2 _
    exact ⟨h2, by simp [runEvents]⟩
  | cons e es ih =>
    intro db h1 h2 h3
    have hstep_un : UnapprovedId (stepEv hash check db e).1 uid :=
      stepEv_unapproved hash check db e uid h1 h2
        (fun s a he => h3 s a (by rw [he]; exact List.mem_cons_self _ _))
    have hstep_lt : uid < (stepEv hash check db e).1.nextUid :=
      Nat.lt_of_lt_of_le h1 (stepEv_nextUid_mono hash check db e)
    have hstep_nb : ∀ s a, Event.approveEv s a uid ∈ es →
        NotBossId (stepEv hash check db e).1 a :=
      fun s a hm =>
        stepEv_notBoss hash check db e a (h3 s a (List.mem_cons_of_mem _ hm))
    have hih := ih (stepEv hash check db e).1 hstep_lt hstep_un hstep_nb
    have hs := stepEv_session hash check db e uid h2
    refine ⟨by simpa [runEvents] using hih.1, ?_⟩
    simp only [runEvents, List.mem_append]
    intro hmem
    rcases hmem with hmem | hmem
    · rcases hsess : (stepEv hash check db e).2 with _ | v
      · rw [hsess] at hmem; simp at hmem
      · rw [hsess] at hmem
        simp at hmem
        rw [← hmem] at hsess
        exact hs hsess
    · exact hih.2 hmem

/-- Claim C7: (i) detective registration creates an unapproved Detective
record under the fresh id; (ii) in every request trace in which no Boss
performs the approve action on that id, the id never obtains an
authenticated session (`login_user` is never reached for it) and stays
unapproved; (iii) once a Boss approves the user, a login with the correct
credentials succeeds. -/
theorem C7_detective_login_gated (hash : String → String)
    (check : String → String → Bool) :
    (∀ (db : DB) (f : DetForm), UidsBounded db →
      findUserByEmail db f.email = none →
      UnapprovedId (register_detective hash none db .post f).2 db.nextUid
      ∧ db.nextUid < (register_detective hash none db .post f).2.nextUid
      ∧ ∃ w ∈ (register_detective hash none db .post f).2.users,
          w.id = db.nextUid ∧ w.role = DETECTIVE_ROLE ∧ w.approved = false)
    ∧ (∀ (db : DB) (evs : List Event) (uid : Nat),
      uid < db.nextUid → UnapprovedId db uid →
      (∀ s a, Event.approveEv s a uid ∈ evs → NotBossId db a) →
      uid ∉ (runEvents hash check db evs).2
      ∧ UnapprovedId (runEvents hash check db evs).1 uid)
    ∧ (∀ (sendOk : Bool) (boss : User) (db : DB) (u : User) (pw : String),
      boss.role = BOSS_ROLE →
      findUserByEmail db u.email = some u →
      findUserById db u.id = some u →
      check u.password pw = true →
      login check none (approve sendOk boss db .post u.id).2.1 .post u.email pw
        = (.redirect "index", some u.id)) := by
  refine ⟨?_, ?_, ?_⟩
  · intro db f hb hfe
    refine ⟨?_, by simp [register_detective, hfe], ?_⟩
    · intro w hw hid
      simp [register_detective, hfe] at hw
      rcases hw with hw | hw
      · exact absurd hid (Nat.ne_of_lt (hb w hw))
      · rw [hw]
    · refine ⟨⟨db.nextUid, f.name, f.last_name, hash f.password, f.email,
        DETECTIVE_ROLE, f.detective_id, false⟩, ?_, rfl, rfl, rfl⟩
      simp [register_detective, hfe]
  · intro db evs uid h1 h2 h3
    have h := runEvents_unapproved hash check uid evs db h1 h2 h3
    exact ⟨h.2, h.1⟩
  · intro sendOk boss db u pw hrole hemail hbyid hcheck
    have h1 : approve sendOk boss db .post u.id
        = (.redirect "approvals",
           { db with users := approveFirst db.users u.id }, 1) := by
      simp [approve, hrole, hbyid]
    rw [h1]
    have hemail' : db.users.find? (fun x => x.email = u.email) = some u := hemail
    have hbyid' : db.users.find? (fun x => x.id = u.id) = some u := hbyid
    have hfind := find_email_approveFirst hemail' hbyid'
    simp [login, findUserByEmail, hfind, hcheck]

/-- Witness for C7: Alice registers as a detective and stays unapproved; a
trace with a login attempt, a (failing) approval attempt by the Guest, and a
second login attempt gives her no session; after the Boss approves her, her
login succeeds. -/
theorem C7_detective_login_gated_witness :
    (UidsBounded db0 ∧ findUserByEmail db0 dform0.email = none
      ∧ UnapprovedId (register_detective hash0 none db0 .post dform0).2 db0.nextUid)
    ∧ (2 < db0.nextUid ∧ UnapprovedId db0 2
      ∧ 2 ∉ (runEvents hash0 check0 db0
          [Event.loginEv "alice@x.com" "pw", Event.approveEv true 3 2,
           Event.loginEv "alice@x.com" "pw"]).2
      ∧ UnapprovedId (runEvents hash0 check0 db0
          [Event.loginEv "alice@x.com" "pw", Event.approveEv true 3 2,
           Event.loginEv "alice@x.com" "pw"]).1 2)
    ∧ login check0 none (approve true boss0 db0 .post det0.id).2.1 .post
        det0.email "pw" = (.redirect "index", some det0.id) := by
  have h := C7_detective_login_gated hash0 check0
  refine ⟨⟨by unfold UidsBounded; decide, by decide,
    (h.1 db0 dform0 (by unfold UidsBounded; decide) (by decide)).1⟩, ?_, ?_⟩
  · have hna : ∀ s a, Event.approveEv s a 2 ∈
        [Event.loginEv "alice@x.com" "pw", Event.approveEv true 3 2,
         Event.loginEv "alice@x.com" "pw"] → NotBossId db0 a := by
      intro s a hm
      simp at hm
      rcases hm with ⟨_, ha⟩
      rw [ha]
      unfold NotBossId
      decide
    have h2 := h.2.1 db0
      [Event.loginEv "alice@x.com" "pw", Event.approveEv true 3 2,
       Event.loginEv "alice@x.com" "pw"] 2 (by decide)
      (by unfold UnapprovedId; decide) hna
    exact ⟨by decide, by unfold UnapprovedId; decide, h2.1, h2.2⟩
  · exact h.2.2 true boss0 db0 det0 "pw" (by decide) (by decide) (by decide)
      (by decide)
